import Mathlib

/-!
Shallow embedding of `sntrack` (src/main.py): a tool that records battery
energy before and after a sleep cycle, persists sessions in an SQLite table
`history`, keyed by a marker file holding the open session id, and plots
discharge rate versus duration.

Modelling conventions:
* The OS-visible filesystem state is the structure `FS`: contents of
  `/sys/class/dmi/id/bios_version`, `/sys/power/mem_sleep`, and the entries of
  `/sys/class/power_supply` (each with its attribute files).  A field of type
  `Option` is `none` when the corresponding file is missing or unreadable.
* A Python exception that the code does not catch is modelled by
  `Except.error (e : PyErr)`; a function that cannot raise returns plainly.
* The database table plus the marker file form the persistent `State`.
  Because `main` commits only after the selected action returns normally, an
  uncaught exception leaves the persistent state unchanged, which the
  `Except.error` branches model by discarding the state.
* Machine floats of the source are modelled by `Rat`; timestamps and sysfs
  integer attributes by `Int`.
-/

namespace Sntrack

/-- Equality of `Except` values is decidable when it is on both components. -/
instance {ε α : Type} [DecidableEq ε] [DecidableEq α] : DecidableEq (Except ε α) := fun a b =>
  match a, b with
  | .error x, .error y =>
    if h : x = y then isTrue (by rw [h]) else isFalse (fun hh => h (by cases hh; rfl))
  | .error _, .ok _ => isFalse (fun hh => by cases hh)
  | .ok _, .error _ => isFalse (fun hh => by cases hh)
  | .ok x, .ok y =>
    if h : x = y then isTrue (by rw [h]) else isFalse (fun hh => h (by cases hh; rfl))

/-- Uncaught Python exception classes that the modelled code paths can raise. -/
inductive PyErr where
  | fileNotFoundError
  | indexError
  | typeError
  | zeroDivisionError
deriving DecidableEq

/-- Python `str.startswith` / glob pattern `name*`, modelled on character lists. -/
def pyStartswith (s p : String) : Bool :=
  p.data.isPrefixOf s.data

/-- Python `str.strip()`: drop leading and trailing whitespace characters. -/
def pyStrip (s : String) : String :=
  String.mk (((s.data.dropWhile Char.isWhitespace).reverse.dropWhile Char.isWhitespace).reverse)

/-- One entry below `/sys/class/power_supply` with its attribute files.
A field is `none` when the file does not exist. -/
structure PSEntry where
  name : String
  online : Option Int
  energy_now : Option Int
  energy_full : Option Int
  charge_now : Option Int
  charge_full : Option Int
  voltage_min_design : Option Int
deriving DecidableEq

/-- The OS-exposed files the sensor reads touch. -/
structure FS where
  bios_version : Option String
  mem_sleep : Option String
  power_supply : List PSEntry
deriving DecidableEq

/-- The `energy_<suffix>` attribute file of a power-supply entry. -/
def energyFile (e : PSEntry) : String → Option Int
  | "now" => e.energy_now
  | "full" => e.energy_full
  | _ => none

/-- The `charge_<suffix>` attribute file of a power-supply entry. -/
def chargeFile (e : PSEntry) : String → Option Int
  | "now" => e.charge_now
  | "full" => e.charge_full
  | _ => none

/-- `get_bios_version` (src/main.py:64): reads and strips the BIOS version;
the whole body is wrapped in try/except, so on any failure it logs a warning
and returns `None`.  Result: (returned value, whether a warning was logged). -/
def get_bios_version (fs : FS) : Option String × Bool :=
  match fs.bios_version with
  | some content => (some (pyStrip content), false)
  | none => (none, true)

/-- `is_on_ac` (src/main.py:77): consults the first `AC*` power-supply entry;
reads its `online` file (uncaught exception if absent); with no `AC*` entry it
assumes AC and returns `True`. -/
def is_on_ac (fs : FS) : Except PyErr Bool :=
  match fs.power_supply.find? (fun e => pyStartswith e.name "AC") with
  | none => .ok true
  | some e =>
    match e.online with
    | none => .error .fileNotFoundError
    | some n => .ok (n == 1)

/-- Index of the last `]` in a character list, if any. -/
def lastRBIdx (cs : List Char) : Option Nat :=
  (cs.foldl (fun acc c => (if c = ']' then some acc.2 else acc.1, acc.2 + 1)) ((none : Option Nat), 0)).1

/-- First match of the regex `\[(.*)\]` (leftmost start, greedy `.*`, `.` not
matching a newline): at the first `[` that is followed by a `]` on the same
line, capture up to the last such `]`. -/
def bracketFirstMatch : List Char → Option (List Char)
  | [] => none
  | c :: rest =>
    if c = '[' then
      match lastRBIdx (rest.takeWhile (fun ch => ch ≠ '\n')) with
      | some i => some ((rest.takeWhile (fun ch => ch ≠ '\n')).take i)
      | none => bracketFirstMatch rest
    else bracketFirstMatch rest

/-- `get_sleep_mode` (src/main.py:89): reads `/sys/power/mem_sleep` and takes
`re.findall(..)[0]`.  No exception handling: a missing file raises
`FileNotFoundError`, an unmatched content raises `IndexError`. -/
def get_sleep_mode (fs : FS) : Except PyErr String :=
  match fs.mem_sleep with
  | none => .error .fileNotFoundError
  | some out =>
    match bracketFirstMatch out.data with
    | some m => .ok (String.mk m)
    | none => .error .indexError

/-- Loop body of `get_battery_energy` over the `BAT*` entries, in iteration
order: return `energy_<suffix>` when present, otherwise derive
`charge_<suffix>/1000 * voltage_min_design/1000` (reading
`voltage_min_design` without an existence check), otherwise continue. -/
def batLoop (sfx : String) : List PSEntry → Except PyErr Rat
  | [] => .ok 0
  | e :: rest =>
    if pyStartswith e.name "BAT" then
      match energyFile e sfx with
      | some v => .ok (v : Rat)
      | none =>
        match chargeFile e sfx with
        | some c =>
          match e.voltage_min_design with
          | some vm => .ok (((c : Rat) / 1000) * ((vm : Rat) / 1000))
          | none => .error .fileNotFoundError
        | none => batLoop sfx rest
    else batLoop sfx rest

/-- `get_battery_energy` (src/main.py:99): scans `BAT*` entries, defaulting to
`0` when none exposes the relevant attribute files. -/
def get_battery_energy (fs : FS) (sfx : String) : Except PyErr Rat :=
  batLoop sfx fs.power_supply

/-- `DURATION_THRESHOLD_S` (src/main.py:28). -/
def DURATION_THRESHOLD_S : Int := 300

/-- One row of the `history` table; every column of the schema is nullable. -/
structure Row where
  id : Int
  bios_version : Option String
  sleep_mode : Option String
  sleep_action : Option String
  t0 : Option Int
  t1 : Option Int
  e0 : Option Rat
  e1 : Option Rat
deriving DecidableEq

/-- Persistent state: the `history` table in row order plus the marker file
`/tmp/sntrack` (holding the open session id, written by `pre` as an integer). -/
structure State where
  history : List Row
  marker : Option Int
deriving DecidableEq

/-- The largest rowid in use (0 for an empty table); SQLite assigns
`maxRowId + 1` to the next inserted row of a non-AUTOINCREMENT table. -/
def maxRowId (h : List Row) : Int :=
  h.foldl (fun m r => max m r.id) 0

/-- `pre` (src/main.py:157): no-op on AC power; otherwise inserts a row with
the sensor readings and start time and writes its rowid to the marker file.
Sensor exceptions propagate, leaving the persistent state unchanged. -/
def pre (fs : FS) (t : Int) (action : String) (s : State) : Except PyErr State :=
  match is_on_ac fs with
  | .error e => .error e
  | .ok true => .ok s
  | .ok false =>
    match get_sleep_mode fs with
    | .error e => .error e
    | .ok mode =>
      match get_battery_energy fs "now" with
      | .error e => .error e
      | .ok e0 =>
        .ok { history := s.history ++
                [{ id := maxRowId s.history + 1
                 , bios_version := (get_bios_version fs).1
                 , sleep_mode := some mode
                 , sleep_action := some action
                 , t0 := some t, t1 := none
                 , e0 := some e0, e1 := none }]
            , marker := some (maxRowId s.history + 1) }

/-- Effect of `UPDATE history SET t1 = ?, e1 = ? WHERE id = ?` on one row. -/
def closeRow (i t : Int) (e1 : Rat) (r : Row) : Row :=
  if r.id = i then { r with t1 := some t, e1 := some e1 } else r

/-- `post` (src/main.py:175): no-op on AC power or when the marker file does
not exist; otherwise reads the stored id, stamps that row with end time and
energy, and deletes the marker file. -/
def post (fs : FS) (t : Int) (s : State) : Except PyErr State :=
  match is_on_ac fs with
  | .error e => .error e
  | .ok true => .ok s
  | .ok false =>
    match s.marker with
    | none => .ok s
    | some cur_id =>
      match get_battery_energy fs "now" with
      | .error e => .error e
      | .ok e1 =>
        .ok { history := s.history.map (closeRow cur_id t e1), marker := none }

/-- Arguments of the `plot` subcommand; a missing optional filter is `none`. -/
structure PlotArgs where
  short : Bool
  bios : Option String
  mode : Option String
  action : Option String
deriving DecidableEq

/-- Python truthiness of an optional string: `None` and `""` are falsy. -/
def truthy : Option String → Bool
  | none => false
  | some s => !s.isEmpty

/-- Body of the row loop of `plot` (src/main.py:218): apply the truthy
filters, skip unterminated rows, skip short rows unless `--short`, skip rows
with non-positive energy delta, and produce the point
`(duration in hours, discharge rate)`.  A NULL in an arithmetic column raises
`TypeError`; a zero duration reaches `rate = ed_w / td_h` and raises
`ZeroDivisionError`. -/
def rowPoint (a : PlotArgs) (r : Row) : Except PyErr (Option (Rat × Rat)) :=
  if truthy a.bios ∧ r.bios_version ≠ a.bios then .ok none
  else if truthy a.mode ∧ r.sleep_mode ≠ a.mode then .ok none
  else if truthy a.action ∧ r.sleep_action ≠ a.action then .ok none
  else
    match r.t1 with
    | none => .ok none
    | some t1v =>
      match r.t0 with
      | none => .error .typeError
      | some t0v =>
        if ¬ a.short ∧ t1v - t0v ≤ DURATION_THRESHOLD_S then .ok none
        else
          match r.e0, r.e1 with
          | some e0v, some e1v =>
            if (e0v - e1v) / 1000000 ≤ 0 then .ok none
            else if ((t1v - t0v : Int) : Rat) / 3600 = 0 then .error .zeroDivisionError
            else .ok (some (((t1v - t0v : Int) : Rat) / 3600,
                            ((e0v - e1v) / 1000000) / (((t1v - t0v : Int) : Rat) / 3600)))
          | _, _ => .error .typeError

/-- The two parallel lists `x_durations` and `y_discharge_rates` built by the
row loop of `plot`, in row order; the first uncaught exception aborts. -/
def plotLists (a : PlotArgs) : List Row → Except PyErr (List Rat × List Rat)
  | [] => .ok ([], [])
  | r :: rs =>
    match rowPoint a r with
    | .error e => .error e
    | .ok none => plotLists a rs
    | .ok (some p) =>
      match plotLists a rs with
      | .error e => .error e
      | .ok (xs, ys) => .ok (p.1 :: xs, p.2 :: ys)

/-- `mean_discharge_rate` (src/main.py:255). -/
def meanDischargeRate (ys : List Rat) : Rat :=
  ys.sum / (ys.length : Rat)

/-- `total_time_slept_h` (src/main.py:257). -/
def totalTimeSleptH (xs : List Rat) : Rat :=
  xs.sum

/-- `total sessions` legend entry (src/main.py:273). -/
def sessionCount (xs : List Rat) : Nat :=
  xs.length

/-- States of the persistent store reachable from the empty store by `pre`
and `post` invocations (under arbitrary filesystem states and times). -/
inductive Reachable : State → Prop where
  | init : Reachable ⟨[], none⟩
  | pre_step {s s' : State} {fs : FS} {t : Int} {a : String} :
      Reachable s → pre fs t a s = .ok s' → Reachable s'
  | post_step {s s' : State} {fs : FS} {t : Int} :
      Reachable s → post fs t s = .ok s' → Reachable s'

/-- Inductive invariant of the store: end columns are set together, rowids
identify rows uniquely, and the marker always points at an open row. -/
def Inv (s : State) : Prop :=
  (∀ r ∈ s.history, (r.t1 = none ∧ r.e1 = none) ∨ (r.t1 ≠ none ∧ r.e1 ≠ none)) ∧
  (∀ r ∈ s.history, ∀ r2 ∈ s.history, r.id = r2.id → r = r2) ∧
  (∀ i, s.marker = some i → ∃ r ∈ s.history, r.id = i ∧ r.t1 = none ∧ r.e1 = none)

/-- An `AC*` entry reporting `online = 0` (system on battery). -/
def acOffEntry : PSEntry :=
  ⟨"AC", some 0, none, none, none, none, none⟩

/-- An `AC*` entry reporting `online = 1` (system on AC power). -/
def acOnEntry : PSEntry :=
  ⟨"AC", some 1, none, none, none, none, none⟩

/-- A battery entry exposing `energy_now` and `energy_full` directly. -/
def batEntry : PSEntry :=
  ⟨"BAT0", none, some 50000000, some 57000000, none, none, some 11400000⟩

/-- A fully readable filesystem with the machine on battery. -/
def fsOnBattery : FS :=
  ⟨some "1.35\n", some "s2idle [deep]\n", [acOffEntry, batEntry]⟩

/-- The same filesystem with the machine on AC power. -/
def fsOnAC : FS :=
  ⟨some "1.35\n", some "s2idle [deep]\n", [acOnEntry, batEntry]⟩

/-- The row inserted by `pre` on battery power. -/
def freshRow (fs : FS) (t : Int) (action m : String) (e0 : Rat) (h : List Row) : Row :=
  { id := maxRowId h + 1
  , bios_version := (get_bios_version fs).1
  , sleep_mode := some m
  , sleep_action := some action
  , t0 := some t, t1 := none
  , e0 := some e0, e1 := none }

theorem foldl_max_le_init (l : List Row) : ∀ i : Int, i ≤ l.foldl (fun m r => max m r.id) i := by
  induction l with
  | nil => intro i; simp
  | cons a t ih => intro i; exact le_trans (le_max_left i a.id) (ih (max i a.id))

theorem mem_le_foldl_max (l : List Row) :
    ∀ (i : Int) (r : Row), r ∈ l → r.id ≤ l.foldl (fun m x => max m x.id) i := by
  induction l with
  | nil => intro i r hr; cases hr
  | cons a t ih =>
    intro i r hr
    rcases List.mem_cons.mp hr with h | h
    · subst h; exact le_trans (le_max_right i r.id) (foldl_max_le_init t (max i r.id))
    · exact ih (max i a.id) r h

theorem le_maxRowId {l : List Row} {r : Row} (hr : r ∈ l) : r.id ≤ maxRowId l :=
  mem_le_foldl_max l 0 r hr

theorem map_id_on {α : Type} {f : α → α} :
    ∀ {l : List α}, (∀ x ∈ l, f x = x) → l.map f = l := by
  intro l
  induction l with
  | nil => intro _; rfl
  | cons a t ih =>
    intro h
    simp only [List.map_cons, h a (List.mem_cons_self a t),
      ih fun x hx => h x (List.mem_cons_of_mem a hx)]

theorem closeRow_id (i t : Int) (e : Rat) (r : Row) : (closeRow i t e r).id = r.id := by
  unfold closeRow; split <;> rfl

theorem closeRow_of_ne {i : Int} {t : Int} {e : Rat} {r : Row} (h : r.id ≠ i) :
    closeRow i t e r = r := by
  unfold closeRow; simp [h]

theorem closeRow_of_eq {i : Int} {t : Int} {e : Rat} {r : Row} (h : r.id = i) :
    closeRow i t e r = { r with t1 := some t, e1 := some e } := by
  unfold closeRow; simp [h]

theorem pre_ac {fs : FS} (t : Int) (a : String) (s : State) (h : is_on_ac fs = .ok true) :
    pre fs t a s = .ok s := by
  unfold pre; rw [h]

theorem pre_battery {fs : FS} (t : Int) (a : String) (s : State) {m : String} {e0 : Rat}
    (hac : is_on_ac fs = .ok false) (hm : get_sleep_mode fs = .ok m)
    (he : get_battery_energy fs "now" = .ok e0) :
    pre fs t a s = .ok ⟨s.history ++ [freshRow fs t a m e0 s.history], some (maxRowId s.history + 1)⟩ := by
  unfold pre; rw [hac, hm, he]; rfl

theorem post_ac {fs : FS} (t : Int) (s : State) (h : is_on_ac fs = .ok true) :
    post fs t s = .ok s := by
  unfold post; rw [h]

theorem post_nomarker {fs : FS} (t : Int) (s : State) (hac : is_on_ac fs = .ok false)
    (hm : s.marker = none) : post fs t s = .ok s := by
  unfold post; rw [hac, hm]

theorem post_marker {fs : FS} (t : Int) (s : State) {i : Int} {e1 : Rat}
    (hac : is_on_ac fs = .ok false) (hm : s.marker = some i)
    (he : get_battery_energy fs "now" = .ok e1) :
    post fs t s = .ok ⟨s.history.map (closeRow i t e1), none⟩ := by
  unfold post; rw [hac, hm, he]

theorem preCases {fs : FS} {t : Int} {a : String} {s s' : State}
    (h : pre fs t a s = .ok s') :
    (is_on_ac fs = .ok true ∧ s' = s) ∨
    (∃ m e0, is_on_ac fs = .ok false ∧ get_sleep_mode fs = .ok m ∧
      get_battery_energy fs "now" = .ok e0 ∧
      s' = ⟨s.history ++ [freshRow fs t a m e0 s.history], some (maxRowId s.history + 1)⟩) := by
  unfold pre at h
  split at h
  · cases h
  · left; injection h with h'; exact ⟨by assumption, h'.symm⟩
  · split at h
    · cases h
    · split at h
      · cases h
      · right
        injection h with h'
        exact ⟨_, _, by assumption, by assumption, by assumption, h'.symm⟩

theorem postCases {fs : FS} {t : Int} {s s' : State} (h : post fs t s = .ok s') :
    (is_on_ac fs = .ok true ∧ s' = s) ∨
    (is_on_ac fs = .ok false ∧ s.marker = none ∧ s' = s) ∨
    (∃ i e1, is_on_ac fs = .ok false ∧ s.marker = some i ∧
      get_battery_energy fs "now" = .ok e1 ∧
      s' = ⟨s.history.map (closeRow i t e1), none⟩) := by
  unfold post at h
  split at h
  · cases h
  · left; injection h with h'; exact ⟨by assumption, h'.symm⟩
  · split at h
    · right; left; injection h with h'; exact ⟨by assumption, by assumption, h'.symm⟩
    · split at h
      · cases h
      · right; right
        injection h with h'
        exact ⟨_, _, by assumption, by assumption, by assumption, h'.symm⟩

theorem inv_init : Inv ⟨[], none⟩ := by
  refine ⟨?_, ?_, ?_⟩ <;> intro r hr <;> cases hr

theorem inv_pre {fs : FS} {t : Int} {a : String} {s s' : State}
    (hi : Inv s) (h : pre fs t a s = .ok s') : Inv s' := by
  rcases preCases h with ⟨-, rfl⟩ | ⟨m, e0, hac, hm, he, rfl⟩
  · exact hi
  · obtain ⟨h1, h2, h3⟩ := hi
    refine ⟨?_, ?_, ?_⟩
    · intro r hr
      rcases List.mem_append.mp hr with hr | hr
      · exact h1 r hr
      · rcases List.mem_singleton.mp hr with rfl
        exact Or.inl ⟨rfl, rfl⟩
    · intro r hr r2 hr2 hid
      rcases List.mem_append.mp hr with ha | ha <;> rcases List.mem_append.mp hr2 with hb | hb
      · exact h2 r ha r2 hb hid
      · exfalso
        rcases List.mem_singleton.mp hb with rfl
        have hle := le_maxRowId ha
        rw [hid] at hle
        simp only [freshRow] at hle
        omega
      · exfalso
        rcases List.mem_singleton.mp ha with rfl
        have hle := le_maxRowId hb
        rw [← hid] at hle
        simp only [freshRow] at hle
        omega
      · rcases List.mem_singleton.mp ha with rfl
        rcases List.mem_singleton.mp hb with rfl
        rfl
    · intro i hmk
      injection hmk with hmk
      refine ⟨freshRow fs t a m e0 s.history,
        List.mem_append_right _ (List.mem_singleton.mpr rfl), ?_, rfl, rfl⟩
      simp only [freshRow]
      exact hmk

theorem inv_post {fs : FS} {t : Int} {s s' : State}
    (hi : Inv s) (h : post fs t s = .ok s') : Inv s' := by
  rcases postCases h with ⟨-, rfl⟩ | ⟨-, -, rfl⟩ | ⟨i, e1, hac, hm, he, rfl⟩
  · exact hi
  · exact hi
  · obtain ⟨h1, h2, h3⟩ := hi
    refine ⟨?_, ?_, ?_⟩
    · intro r hr
      rcases List.mem_map.mp hr with ⟨x, hx, rfl⟩
      by_cases hxi : x.id = i
      · rw [closeRow_of_eq hxi]
        exact Or.inr ⟨by simp, by simp⟩
      · rw [closeRow_of_ne hxi]
        exact h1 x hx
    · intro r hr r2 hr2 hid
      rcases List.mem_map.mp hr with ⟨x, hx, rfl⟩
      rcases List.mem_map.mp hr2 with ⟨y, hy, rfl⟩
      rw [closeRow_id, closeRow_id] at hid
      rw [h2 x hx y hy hid]
    · intro j hj
      cases hj

theorem reachable_inv {s : State} (h : Reachable s) : Inv s := by
  induction h with
  | init => exact inv_init
  | pre_step _ hp ih => exact inv_pre ih hp
  | post_step _ hp ih => exact inv_post ih hp

/-- Claim C1: a `pre` call followed by a `post` call, both on battery power
and completing normally, extends the history by exactly one row whose
`bios_version`, `sleep_mode`, `sleep_action`, `t0` and `e0` come from the
`pre` invocation and whose `t1` and `e1` come from the `post` invocation, and
the marker file does not exist afterwards. -/
theorem pre_post_pair_records_one_session
    (fs1 fs2 : FS) (t1 t2 : Int) (a : String) (s s1 s2 : State)
    (hac1 : is_on_ac fs1 = .ok false) (hac2 : is_on_ac fs2 = .ok false)
    (hpre : pre fs1 t1 a s = .ok s1) (hpost : post fs2 t2 s1 = .ok s2) :
    ∃ m e0 e1, get_sleep_mode fs1 = .ok m ∧
      get_battery_energy fs1 "now" = .ok e0 ∧
      get_battery_energy fs2 "now" = .ok e1 ∧
      s2.history = s.history ++
        [⟨maxRowId s.history + 1, (get_bios_version fs1).1, some m, some a,
          some t1, some t2, some e0, some e1⟩] ∧
      s2.marker = none := by
  rcases preCases hpre with ⟨hT, -⟩ | ⟨m, e0, -, hm, he0, rfl⟩
  · rw [hac1] at hT; simp at hT
  · rcases postCases hpost with ⟨hT, -⟩ | ⟨-, hmk, -⟩ | ⟨i, e1, -, hmk, he1, rfl⟩
    · rw [hac2] at hT; simp at hT
    · cases hmk
    · injection hmk with hmk
      subst hmk
      refine ⟨m, e0, e1, hm, he0, he1, ?_, rfl⟩
      show (s.history ++ [freshRow fs1 t1 a m e0 s.history]).map
          (closeRow (maxRowId s.history + 1) t2 e1) = _
      rw [List.map_append]
      congr 1
      · apply map_id_on
        intro r hr
        apply closeRow_of_ne
        have := le_maxRowId hr
        omega
      · rw [List.map_singleton, closeRow_of_eq (by simp [freshRow])]
        simp [freshRow]

/-- Witness for C1: starting from the empty store, a concrete `pre` at time
1000 and `post` at time 1600 on battery yield one fully populated row and no
marker. -/
theorem pre_post_pair_records_one_session_witness :
    ∃ m e0 e1, get_sleep_mode fsOnBattery = .ok m ∧
      get_battery_energy fsOnBattery "now" = .ok e0 ∧
      get_battery_energy fsOnBattery "now" = .ok e1 ∧
      (State.mk [⟨1, some "1.35", some "deep", some "suspend", some 1000, some 1600,
          some 50000000, some 50000000⟩] none).history =
        (State.mk [] none).history ++
        [⟨maxRowId (State.mk [] none).history + 1, (get_bios_version fsOnBattery).1, some m,
          some "suspend", some 1000, some 1600, some e0, some e1⟩] ∧
      (State.mk [⟨1, some "1.35", some "deep", some "suspend", some 1000, some 1600,
          some 50000000, some 50000000⟩] none).marker = none :=
  pre_post_pair_records_one_session fsOnBattery fsOnBattery 1000 1600 "suspend"
    ⟨[], none⟩
    ⟨[⟨1, some "1.35", some "deep", some "suspend", some 1000, none, some 50000000, none⟩], some 1⟩
    ⟨[⟨1, some "1.35", some "deep", some "suspend", some 1000, some 1600,
        some 50000000, some 50000000⟩], none⟩
    rfl rfl rfl rfl

/-- Claim C4: in every reachable store the end fields `t1` and `e1` of a row
are both unset or both set; `pre` never alters an existing row, `post` never
alters a row whose end fields are already set (so they are set at most once),
and a row changed by `post` carries the id recorded in the marker file, which
pointed at an open row. -/
theorem end_fields_invariant (s : State) (hs : Reachable s) :
    (∀ r ∈ s.history, (r.t1 = none ∧ r.e1 = none) ∨ (r.t1 ≠ none ∧ r.e1 ≠ none)) ∧
    (∀ fs t a s2, pre fs t a s = .ok s2 → ∀ r ∈ s.history, r ∈ s2.history) ∧
    (∀ fs t s2, post fs t s = .ok s2 → ∀ r ∈ s.history, r.t1 ≠ none → r ∈ s2.history) ∧
    (∀ fs t s2, post fs t s = .ok s2 → ∀ r2 ∈ s2.history, r2 ∉ s.history →
      ∃ i, s.marker = some i ∧ r2.id = i ∧
        ∃ r ∈ s.history, r.id = i ∧ r.t1 = none ∧ r.e1 = none) := by
  obtain ⟨h1, h2, h3⟩ := reachable_inv hs
  refine ⟨h1, ?_, ?_, ?_⟩
  · intro fs t a s2 hp r hr
    rcases preCases hp with ⟨-, rfl⟩ | ⟨m, e0, -, -, -, rfl⟩
    · exact hr
    · exact List.mem_append_left _ hr
  · intro fs t s2 hp r hr hcl
    rcases postCases hp with ⟨-, rfl⟩ | ⟨-, -, rfl⟩ | ⟨i, e1, -, hmk, -, rfl⟩
    · exact hr
    · exact hr
    · obtain ⟨rM, hrM, hrMid, hrMt1, -⟩ := h3 i hmk
      have hne : r.id ≠ i := by
        intro hrid
        have hre : r = rM := h2 r hr rM hrM (by rw [hrid, hrMid])
        rw [hre] at hcl
        exact hcl hrMt1
      exact List.mem_map.mpr ⟨r, hr, closeRow_of_ne hne⟩
  · intro fs t s2 hp r2 hr2 hnot
    rcases postCases hp with ⟨-, rfl⟩ | ⟨-, -, rfl⟩ | ⟨i, e1, -, hmk, -, rfl⟩
    · exact absurd hr2 hnot
    · exact absurd hr2 hnot
    · rcases List.mem_map.mp hr2 with ⟨x, hx, rfl⟩
      by_cases hxi : x.id = i
      · exact ⟨i, hmk, by rw [closeRow_id]; exact hxi, h3 i hmk⟩
      · rw [closeRow_of_ne hxi] at hnot
        exact absurd hx hnot

/-- Witness for C4: the invariant instantiated at the concrete reachable
state produced by one `pre` invocation on battery from the empty store. -/
theorem end_fields_invariant_witness :
    (∀ r ∈ (State.mk [⟨1, some "1.35", some "deep", some "suspend", some 1000, none,
        some 50000000, none⟩] (some 1)).history,
      (r.t1 = none ∧ r.e1 = none) ∨ (r.t1 ≠ none ∧ r.e1 ≠ none)) ∧
    (∀ fs t a s2, pre fs t a (State.mk [⟨1, some "1.35", some "deep", some "suspend",
        some 1000, none, some 50000000, none⟩] (some 1)) = .ok s2 →
      ∀ r ∈ (State.mk [⟨1, some "1.35", some "deep", some "suspend", some 1000, none,
        some 50000000, none⟩] (some 1)).history, r ∈ s2.history) ∧
    (∀ fs t s2, post fs t (State.mk [⟨1, some "1.35", some "deep", some "suspend",
        some 1000, none, some 50000000, none⟩] (some 1)) = .ok s2 →
      ∀ r ∈ (State.mk [⟨1, some "1.35", some "deep", some "suspend", some 1000, none,
        some 50000000, none⟩] (some 1)).history, r.t1 ≠ none → r ∈ s2.history) ∧
    (∀ fs t s2, post fs t (State.mk [⟨1, some "1.35", some "deep", some "suspend",
        some 1000, none, some 50000000, none⟩] (some 1)) = .ok s2 →
      ∀ r2 ∈ s2.history,
        r2 ∉ (State.mk [⟨1, some "1.35", some "deep", some "suspend", some 1000, none,
          some 50000000, none⟩] (some 1)).history →
        ∃ i, (State.mk [⟨1, some "1.35", some "deep", some "suspend", some 1000, none,
            some 50000000, none⟩] (some 1)).marker = some i ∧ r2.id = i ∧
          ∃ r ∈ (State.mk [⟨1, some "1.35", some "deep", some "suspend", some 1000, none,
            some 50000000, none⟩] (some 1)).history,
            r.id = i ∧ r.t1 = none ∧ r.e1 = none) :=
  end_fields_invariant
    ⟨[⟨1, some "1.35", some "deep", some "suspend", some 1000, none, some 50000000, none⟩], some 1⟩
    (Reachable.pre_step Reachable.init
      (show pre fsOnBattery 1000 "suspend" ⟨[], none⟩ = .ok _ from rfl))

/-- Claim C3: a `pre` call while the system is on AC power inserts no row and
does not create or modify the marker file: the persistent state is returned
unchanged, whatever the database and marker contents are. -/
theorem pre_on_ac_is_noop (fs : FS) (t : Int) (a : String) (s : State)
    (h : is_on_ac fs = .ok true) : pre fs t a s = .ok s :=
  pre_ac t a s h

/-- Witness for C3: on a filesystem whose `AC` entry reports `online = 1`,
`pre` leaves a concrete state untouched. -/
theorem pre_on_ac_is_noop_witness :
    is_on_ac fsOnAC = .ok true ∧
    pre fsOnAC 1000 "suspend" ⟨[], none⟩ = .ok ⟨[], none⟩ :=
  ⟨rfl, pre_on_ac_is_noop fsOnAC 1000 "suspend" ⟨[], none⟩ rfl⟩

/-- Claim C8: with no power-supply entry whose name starts with `AC`,
`is_on_ac` assumes AC power and returns `True`, so `pre` and `post` are
no-ops: no row is inserted or updated and no marker file is written. -/
theorem no_ac_entry_assumes_ac (fs : FS)
    (h : ∀ e ∈ fs.power_supply, pyStartswith e.name "AC" = false) :
    is_on_ac fs = .ok true ∧
    (∀ t a s, pre fs t a s = .ok s) ∧
    (∀ t s, post fs t s = .ok s) := by
  have hfind : fs.power_supply.find? (fun e => pyStartswith e.name "AC") = none :=
    List.find?_eq_none.mpr fun x hx => by rw [h x hx]; simp
  have hac : is_on_ac fs = .ok true := by
    unfold is_on_ac; rw [hfind]
  exact ⟨hac, fun t a s => pre_ac t a s hac, fun t s => post_ac t s hac⟩

/-- Witness for C8: a machine exposing only a battery entry is treated as on
AC and both recorder actions leave a concrete state untouched. -/
theorem no_ac_entry_assumes_ac_witness :
    is_on_ac ⟨none, none, [batEntry]⟩ = .ok true ∧
    pre ⟨none, none, [batEntry]⟩ 5 "suspend" ⟨[], none⟩ = .ok ⟨[], none⟩ ∧
    post ⟨none, none, [batEntry]⟩ 5 ⟨[], none⟩ = .ok ⟨[], none⟩ :=
  have h := no_ac_entry_assumes_ac ⟨none, none, [batEntry]⟩ (by decide)
  ⟨h.1, h.2.1 5 "suspend" ⟨[], none⟩, h.2.2 5 ⟨[], none⟩⟩

/-- Claim C9: on battery power, a `post` call with a marker id that matches no
history row succeeds, deletes the marker file, and leaves every row unchanged
(the UPDATE affects zero rows). -/
theorem post_dangling_marker_id (fs : FS) (t : Int) (s : State) (i : Int) (e1 : Rat)
    (hac : is_on_ac fs = .ok false) (hm : s.marker = some i)
    (he : get_battery_energy fs "now" = .ok e1)
    (hno : ∀ r ∈ s.history, r.id ≠ i) :
    post fs t s = .ok ⟨s.history, none⟩ := by
  have hmap : s.history.map (closeRow i t e1) = s.history :=
    map_id_on fun r hr => closeRow_of_ne (hno r hr)
  rw [post_marker t s hac hm he, hmap]

/-- Witness for C9: a marker id `42` with a single row of id `1` is simply
discarded. -/
theorem post_dangling_marker_id_witness :
    post fsOnBattery 9 ⟨[⟨1, none, some "deep", some "suspend", some 3, none, some 7, none⟩], some 42⟩ =
      .ok ⟨[⟨1, none, some "deep", some "suspend", some 3, none, some 7, none⟩], none⟩ :=
  post_dangling_marker_id fsOnBattery 9
    ⟨[⟨1, none, some "deep", some "suspend", some 3, none, some 7, none⟩], some 42⟩
    42 50000000 rfl rfl rfl (by decide)

theorem batLoop_default (sfx : String) :
    ∀ l : List PSEntry, (∀ e ∈ l, pyStartswith e.name "BAT" = true →
      energyFile e sfx = none ∧ chargeFile e sfx = none) → batLoop sfx l = .ok 0 := by
  intro l
  induction l with
  | nil => intro _; rfl
  | cons a t ih =>
    intro h
    have hrec := ih fun e he hbe => h e (List.mem_cons_of_mem a he) hbe
    by_cases hba : pyStartswith a.name "BAT" = true
    · obtain ⟨hE, hC⟩ := h a (List.mem_cons_self a t) hba
      unfold batLoop
      rw [if_pos hba, hE, hC]
      exact hrec
    · unfold batLoop
      rw [if_neg hba]
      exact hrec

theorem batLoop_energy (sfx : String) (v : Int) :
    ∀ (l1 : List PSEntry) (e : PSEntry) (l2 : List PSEntry),
      pyStartswith e.name "BAT" = true → energyFile e sfx = some v →
      (∀ x ∈ l1, pyStartswith x.name "BAT" = false ∨
        (energyFile x sfx = none ∧ chargeFile x sfx = none)) →
      batLoop sfx (l1 ++ e :: l2) = .ok (v : Rat) := by
  intro l1
  induction l1 with
  | nil =>
    intro e l2 hb hE _
    show batLoop sfx (e :: l2) = _
    unfold batLoop
    rw [if_pos hb, hE]
  | cons a t ih =>
    intro e l2 hb hE h
    have hrec := ih e l2 hb hE fun x hx => h x (List.mem_cons_of_mem a hx)
    show batLoop sfx (a :: (t ++ e :: l2)) = _
    by_cases hba : pyStartswith a.name "BAT" = true
    · rcases h a (List.mem_cons_self a t) with ha | ⟨hEa, hCa⟩
      · rw [hba] at ha; cases ha
      · unfold batLoop
        rw [if_pos hba, hEa, hCa]
        exact hrec
    · unfold batLoop
      rw [if_neg hba]
      exact hrec

/-- Claim C10: when no `BAT*` entry exposes an `energy_<suffix>` or
`charge_<suffix>` file, `get_battery_energy` returns 0, and a `pre` call on
such a machine records `e0 = 0`; when an entry has both kinds of file, the
`energy_<suffix>` value wins and the charge-times-voltage derivation is
unused. -/
theorem battery_energy_defaults :
    (∀ fs sfx, (∀ e ∈ fs.power_supply, pyStartswith e.name "BAT" = true →
        energyFile e sfx = none ∧ chargeFile e sfx = none) →
      get_battery_energy fs sfx = .ok 0) ∧
    (∀ (b m : Option String) (l1 : List PSEntry) (e : PSEntry) (l2 : List PSEntry)
        (sfx : String) (v c : Int),
      pyStartswith e.name "BAT" = true → energyFile e sfx = some v →
      chargeFile e sfx = some c →
      (∀ x ∈ l1, pyStartswith x.name "BAT" = false ∨
        (energyFile x sfx = none ∧ chargeFile x sfx = none)) →
      get_battery_energy ⟨b, m, l1 ++ e :: l2⟩ sfx = .ok (v : Rat)) ∧
    (∀ fs t a s m, is_on_ac fs = .ok false → get_sleep_mode fs = .ok m →
      (∀ e ∈ fs.power_supply, pyStartswith e.name "BAT" = true →
        energyFile e "now" = none ∧ chargeFile e "now" = none) →
      pre fs t a s = .ok ⟨s.history ++ [freshRow fs t a m 0 s.history],
        some (maxRowId s.history + 1)⟩) := by
  refine ⟨?_, ?_, ?_⟩
  · intro fs sfx h
    exact batLoop_default sfx fs.power_supply h
  · intro b m l1 e l2 sfx v c hb hE _ h
    exact batLoop_energy sfx v l1 e l2 hb hE h
  · intro fs t a s m hac hm h
    exact pre_battery t a s hac hm (batLoop_default "now" fs.power_supply h)

/-- Witness for C10: a machine with only an `AC` entry reads energy 0, and a
battery exposing both `energy_now` and `charge_now` yields the `energy_now`
value, not `charge_now / 1000 * voltage_min_design / 1000`. -/
theorem battery_energy_defaults_witness :
    get_battery_energy ⟨none, none, [acOffEntry]⟩ "now" = .ok 0 ∧
    get_battery_energy ⟨none, none,
      [⟨"BAT0", none, some 50000000, none, some 4400000, none, some 11400000⟩]⟩ "now" =
      .ok ((50000000 : Int) : Rat) :=
  ⟨battery_energy_defaults.1 ⟨none, none, [acOffEntry]⟩ "now" (by decide),
   battery_energy_defaults.2.1 none none []
     ⟨"BAT0", none, some 50000000, none, some 4400000, none, some 11400000⟩ []
     "now" 50000000 4400000 rfl rfl rfl (by decide)⟩

/-- Counterexample for claim C2: reading the sleep mode on a machine without
`/sys/power/mem_sleep` does not log and return a default value: the
`FileNotFoundError` propagates out of `get_sleep_mode`, which has no
exception handling, and terminates the program. -/
theorem sleep_mode_failure_propagates :
    get_sleep_mode ⟨none, none, []⟩ = Except.error PyErr.fileNotFoundError := rfl

/-- Claim C2 (amended): only `get_bios_version` degrades on access failure,
logging a warning and returning `None`; `get_sleep_mode` raises on a missing
status file, and `is_on_ac` raises when the first `AC*` entry has no readable
`online` file, and these exceptions propagate uncaught. -/
theorem sensor_failure_modes :
    (∀ fs, fs.bios_version = none → get_bios_version fs = (none, true)) ∧
    (∀ fs, fs.mem_sleep = none → get_sleep_mode fs = .error .fileNotFoundError) ∧
    (∀ fs e, fs.power_supply.find? (fun x => pyStartswith x.name "AC") = some e →
      e.online = none → is_on_ac fs = .error .fileNotFoundError) := by
  refine ⟨?_, ?_, ?_⟩
  · intro fs h; unfold get_bios_version; rw [h]
  · intro fs h; unfold get_sleep_mode; rw [h]
  · intro fs e hf ho; simp only [is_on_ac, hf, ho]

/-- Witness for the amended C2, at concrete broken filesystems. -/
theorem sensor_failure_modes_witness :
    get_bios_version ⟨none, some "[deep]", []⟩ = (none, true) ∧
    get_sleep_mode ⟨some "1.35", none, []⟩ = .error .fileNotFoundError ∧
    is_on_ac ⟨none, none, [⟨"AC", none, none, none, none, none, none⟩]⟩ =
      .error .fileNotFoundError :=
  ⟨sensor_failure_modes.1 ⟨none, some "[deep]", []⟩ rfl,
   sensor_failure_modes.2.1 ⟨some "1.35", none, []⟩ rfl,
   sensor_failure_modes.2.2 ⟨none, none, [⟨"AC", none, none, none, none, none, none⟩]⟩
     ⟨"AC", none, none, none, none, none, none⟩ rfl rfl⟩

theorem plotLists_skip (a : PlotArgs) {r : Row} (hr : rowPoint a r = .ok none) :
    ∀ l1 l2, plotLists a (l1 ++ r :: l2) = plotLists a (l1 ++ l2) := by
  intro l1
  induction l1 with
  | nil =>
    intro l2
    show plotLists a (r :: l2) = plotLists a l2
    conv_lhs => rw [plotLists]
    rw [hr]
  | cons x t ih =>
    intro l2
    show plotLists a (x :: (t ++ r :: l2)) = plotLists a (x :: (t ++ l2))
    conv_lhs => rw [plotLists]
    conv_rhs => rw [plotLists]
    rw [ih l2]

/-- Claim C7: a terminated session with non-positive energy delta contributes
no point and leaves the plotted lists, hence the mean rate, total slept time
and session count, unchanged, regardless of duration and of the short flag. -/
theorem nonpositive_energy_delta_excluded (a : PlotArgs) (r : Row)
    (t0v t1v : Int) (e0v e1v : Rat)
    (ht0 : r.t0 = some t0v) (ht1 : r.t1 = some t1v)
    (he0 : r.e0 = some e0v) (he1 : r.e1 = some e1v)
    (hed : e0v - e1v ≤ 0) :
    rowPoint a r = .ok none ∧
    (∀ l1 l2, plotLists a (l1 ++ r :: l2) = plotLists a (l1 ++ l2)) ∧
    (∀ l1 l2 xs ys xs2 ys2, plotLists a (l1 ++ r :: l2) = .ok (xs, ys) →
      plotLists a (l1 ++ l2) = .ok (xs2, ys2) →
      meanDischargeRate ys = meanDischargeRate ys2 ∧
      totalTimeSleptH xs = totalTimeSleptH xs2 ∧
      sessionCount xs = sessionCount xs2) := by
  have hle : (e0v - e1v) / 1000000 ≤ 0 :=
    div_nonpos_of_nonpos_of_nonneg hed (by norm_num)
  have hnone : rowPoint a r = .ok none := by
    simp only [rowPoint, ht1, ht0, he0, he1]
    split_ifs <;> simp_all
  refine ⟨hnone, plotLists_skip a hnone, ?_⟩
  intro l1 l2 xs ys xs2 ys2 hA hB
  rw [plotLists_skip a hnone l1 l2, hB] at hA
  injection hA with hA
  injection hA with hx hy
  rw [hx, hy]
  exact ⟨rfl, rfl, rfl⟩

/-- Witness for C7: a 400-second session with zero energy delta is dropped. -/
theorem nonpositive_energy_delta_excluded_witness :
    rowPoint ⟨false, none, none, none⟩
      ⟨1, none, none, none, some 0, some 400, some 5, some 5⟩ = .ok none ∧
    (∀ l1 l2, plotLists ⟨false, none, none, none⟩
        (l1 ++ ⟨1, none, none, none, some 0, some 400, some 5, some 5⟩ :: l2) =
      plotLists ⟨false, none, none, none⟩ (l1 ++ l2)) ∧
    (∀ l1 l2 xs ys xs2 ys2, plotLists ⟨false, none, none, none⟩
        (l1 ++ ⟨1, none, none, none, some 0, some 400, some 5, some 5⟩ :: l2) = .ok (xs, ys) →
      plotLists ⟨false, none, none, none⟩ (l1 ++ l2) = .ok (xs2, ys2) →
      meanDischargeRate ys = meanDischargeRate ys2 ∧
      totalTimeSleptH xs = totalTimeSleptH xs2 ∧
      sessionCount xs = sessionCount xs2) :=
  nonpositive_energy_delta_excluded ⟨false, none, none, none⟩
    ⟨1, none, none, none, some 0, some 400, some 5, some 5⟩
    0 400 5 5 rfl rfl rfl rfl (by norm_num)

/-- Counterexample for claim C5: supplying the empty string as the --bios
filter value is falsy in Python, so the filter is not applied: a row whose
`bios_version` differs from the supplied value still contributes a point. -/
theorem empty_filter_value_not_applied :
    rowPoint ⟨false, some "", none, none⟩
      ⟨1, some "A", some "deep", some "suspend", some 0, some 3600,
        some 2000000, some 1000000⟩ = .ok (some (1, 1)) ∧
    (⟨1, some "A", some "deep", some "suspend", some 0, some 3600,
        some 2000000, some 1000000⟩ : Row).bios_version ≠
      (⟨false, some "", none, none⟩ : PlotArgs).bios := by
  constructor
  · norm_num [rowPoint, truthy, DURATION_THRESHOLD_S, String.isEmpty]
  · decide

/-- Claim C5 (amended): every session contributing a point has
`bios_version`, `sleep_mode` and `sleep_action` equal to each supplied
truthy (non-empty) filter value, and a row differing in any supplied truthy
filter field is excluded; an empty-string filter value is falsy and disables
that filter. -/
theorem plot_filters_match :
    (∀ a r p, rowPoint a r = .ok (some p) →
      (truthy a.bios = true → r.bios_version = a.bios) ∧
      (truthy a.mode = true → r.sleep_mode = a.mode) ∧
      (truthy a.action = true → r.sleep_action = a.action)) ∧
    (∀ a r, ((truthy a.bios = true ∧ r.bios_version ≠ a.bios) ∨
             (truthy a.mode = true ∧ r.sleep_mode ≠ a.mode) ∨
             (truthy a.action = true ∧ r.sleep_action ≠ a.action)) →
      rowPoint a r = .ok none) := by
  constructor
  · intro a r p h
    unfold rowPoint at h
    by_cases h1 : truthy a.bios ∧ r.bios_version ≠ a.bios
    · rw [if_pos h1] at h; simp at h
    · rw [if_neg h1] at h
      by_cases h2 : truthy a.mode ∧ r.sleep_mode ≠ a.mode
      · rw [if_pos h2] at h; simp at h
      · rw [if_neg h2] at h
        by_cases h3 : truthy a.action ∧ r.sleep_action ≠ a.action
        · rw [if_pos h3] at h; simp at h
        · refine ⟨?_, ?_, ?_⟩ <;> intro ht <;> by_contra hne
          exacts [h1 ⟨ht, hne⟩, h2 ⟨ht, hne⟩, h3 ⟨ht, hne⟩]
  · intro a r hd
    unfold rowPoint
    rcases hd with ⟨ht, hne⟩ | ⟨ht, hne⟩ | ⟨ht, hne⟩
    · rw [if_pos ⟨ht, hne⟩]
    · by_cases h1 : truthy a.bios ∧ r.bios_version ≠ a.bios
      · rw [if_pos h1]
      · rw [if_neg h1, if_pos ⟨ht, hne⟩]
    · by_cases h1 : truthy a.bios ∧ r.bios_version ≠ a.bios
      · rw [if_pos h1]
      · rw [if_neg h1]
        by_cases h2 : truthy a.mode ∧ r.sleep_mode ≠ a.mode
        · rw [if_pos h2]
        · rw [if_neg h2, if_pos ⟨ht, hne⟩]

/-- Witness for the amended C5: a matching row passes a non-empty --bios
filter and a mismatching row is excluded by it. -/
theorem plot_filters_match_witness :
    ((truthy (⟨false, some "A", none, none⟩ : PlotArgs).bios = true →
      (⟨1, some "A", some "deep", some "suspend", some 0, some 3600,
        some 2000000, some 1000000⟩ : Row).bios_version =
        (⟨false, some "A", none, none⟩ : PlotArgs).bios) ∧
     (truthy (⟨false, some "A", none, none⟩ : PlotArgs).mode = true →
      (⟨1, some "A", some "deep", some "suspend", some 0, some 3600,
        some 2000000, some 1000000⟩ : Row).sleep_mode =
        (⟨false, some "A", none, none⟩ : PlotArgs).mode) ∧
     (truthy (⟨false, some "A", none, none⟩ : PlotArgs).action = true →
      (⟨1, some "A", some "deep", some "suspend", some 0, some 3600,
        some 2000000, some 1000000⟩ : Row).sleep_action =
        (⟨false, some "A", none, none⟩ : PlotArgs).action)) ∧
    rowPoint ⟨false, some "x", none, none⟩
      ⟨1, some "y", some "deep", some "suspend", some 0, some 3600,
        some 2000000, some 1000000⟩ = .ok none :=
  ⟨plot_filters_match.1 ⟨false, some "A", none, none⟩
    ⟨1, some "A", some "deep", some "suspend", some 0, some 3600,
      some 2000000, some 1000000⟩ (1, 1)
    (by norm_num [rowPoint, truthy, DURATION_THRESHOLD_S, String.isEmpty]),
   plot_filters_match.2 ⟨false, some "x", none, none⟩
    ⟨1, some "y", some "deep", some "suspend", some 0, some 3600,
      some 2000000, some 1000000⟩ (Or.inl ⟨by decide, by decide⟩)⟩

/-- Counterexample for claim C6: a zero-duration session (t1 = t0) with
positive energy delta, with the --short flag set, is not included in the
plot: the rate computation divides by a zero duration and the uncaught
`ZeroDivisionError` aborts `plot`. -/
theorem zero_duration_short_session_raises :
    rowPoint ⟨true, none, none, none⟩
      ⟨1, none, none, none, some 0, some 0, some 2000000, some 1000000⟩ =
      .error .zeroDivisionError := by
  norm_num [rowPoint, truthy, DURATION_THRESHOLD_S]

/-- Claim C6 (amended): without --short a session of duration below the
300-second threshold is excluded; with --short such a session is included,
subject to the truthy filters and a positive energy delta, provided its
duration is not zero (a zero duration raises `ZeroDivisionError`). -/
theorem short_session_threshold :
    (∀ a r t0v t1v, a.short = false → r.t0 = some t0v → r.t1 = some t1v →
      t1v - t0v < DURATION_THRESHOLD_S → rowPoint a r = .ok none) ∧
    (∀ a r t0v t1v e0v e1v, a.short = true →
      (truthy a.bios = true → r.bios_version = a.bios) →
      (truthy a.mode = true → r.sleep_mode = a.mode) →
      (truthy a.action = true → r.sleep_action = a.action) →
      r.t0 = some t0v → r.t1 = some t1v →
      t1v - t0v < DURATION_THRESHOLD_S → t1v - t0v ≠ 0 →
      r.e0 = some e0v → r.e1 = some e1v → 0 < e0v - e1v →
      rowPoint a r = .ok (some (((t1v - t0v : Int) : Rat) / 3600,
        ((e0v - e1v) / 1000000) / (((t1v - t0v : Int) : Rat) / 3600)))) := by
  constructor
  · intro a r t0v t1v hs ht0 ht1 hlt
    unfold rowPoint
    by_cases h1 : truthy a.bios ∧ r.bios_version ≠ a.bios
    · rw [if_pos h1]
    · rw [if_neg h1]
      by_cases h2 : truthy a.mode ∧ r.sleep_mode ≠ a.mode
      · rw [if_pos h2]
      · rw [if_neg h2]
        by_cases h3 : truthy a.action ∧ r.sleep_action ≠ a.action
        · rw [if_pos h3]
        · rw [if_neg h3]
          simp only [ht1, ht0]
          rw [if_pos ⟨by simp [hs], le_of_lt hlt⟩]
  · intro a r t0v t1v e0v e1v hs hb hm ha ht0 ht1 _ htd he0 he1 hdelta
    have h1 : ¬ (truthy a.bios ∧ r.bios_version ≠ a.bios) :=
      fun hc => hc.2 (hb hc.1)
    have h2 : ¬ (truthy a.mode ∧ r.sleep_mode ≠ a.mode) :=
      fun hc => hc.2 (hm hc.1)
    have h3 : ¬ (truthy a.action ∧ r.sleep_action ≠ a.action) :=
      fun hc => hc.2 (ha hc.1)
    have hcast : ((t1v - t0v : Int) : Rat) ≠ 0 := Int.cast_ne_zero.mpr htd
    unfold rowPoint
    rw [if_neg h1, if_neg h2, if_neg h3]
    simp only [ht1, ht0, he0, he1]
    rw [if_neg (fun hc => hc.1 hs)]
    rw [if_neg (not_le.mpr (div_pos hdelta (by norm_num)))]
    rw [if_neg (div_ne_zero hcast (by norm_num))]

/-- Witness for the amended C6: a 100-second session is dropped without
--short, and included with --short when its energy delta is positive. -/
theorem short_session_threshold_witness :
    rowPoint ⟨false, none, none, none⟩
      ⟨1, none, none, none, some 0, some 100, some 9, some 1⟩ = .ok none ∧
    rowPoint ⟨true, none, none, none⟩
      ⟨1, none, none, none, some 0, some 100, some 2000000, some 1000000⟩ =
      .ok (some (((100 - 0 : Int) : Rat) / 3600,
        ((2000000 - 1000000 : Rat) / 1000000) / (((100 - 0 : Int) : Rat) / 3600))) :=
  ⟨short_session_threshold.1 ⟨false, none, none, none⟩
    ⟨1, none, none, none, some 0, some 100, some 9, some 1⟩ 0 100
    rfl rfl rfl (by decide),
   short_session_threshold.2 ⟨true, none, none, none⟩
    ⟨1, none, none, none, some 0, some 100, some 2000000, some 1000000⟩
    0 100 2000000 1000000 rfl (by decide) (by decide) (by decide)
    rfl rfl (by decide) (by decide) rfl rfl (by norm_num)⟩

end Sntrack
